import Mathlib

/-!
Verification of the CAPEgpt-v2 retrieval & analytics engine against its
natural-language specification.

The engine lives in the repository's SQL layer (Supabase migrations):

* the interaction ledger and popularity counters
  (`question_interactions`, `update_question_popularity`,
  `record_question_interaction`, `get_trending_questions`);
* the vector search functions over `question_chunks` / `syllabus_chunks`
  (`match_question_chunks`, `match_syllabus_sections`, `hybrid_search`);
* the topic aggregate cache and probability statistics
  (`topic_stats`, `refresh_topic_stats`, `get_topic_probability_stats`).

Each SQL function is shallowly embedded as a Lean function over explicit
table states.  SQL numeric values are modelled with `Nat`/`Int`/`Rat`;
UUIDs as naturals; timestamps as integers (epoch seconds); `NULL`able
columns as `Option`.  The pgvector cosine-distance operator applied to a
fixed query embedding is modelled as an abstract per-row distance
function, so `similarity = 1 - dist row` exactly as in the SQL.
-/

namespace Popularity

/-- A row of the `question_interactions` table (the interaction ledger).
The table's unique key is the whole tuple
`(question_id, user_id, interaction_type, created_at)`. -/
structure Interaction where
  question_id : Nat
  user_id : Nat
  interaction_type : String
  created_at : Int
deriving DecidableEq, Repr

/-- A row of the `questions` table, restricted to the columns the popularity
subsystem touches.  `view_count`, `share_count`, `favorite_count` default
to 0 and `last_viewed_at` to NULL. -/
structure QuestionRow where
  id : Nat
  view_count : Nat
  share_count : Nat
  favorite_count : Nat
  last_viewed_at : Option Int
deriving DecidableEq, Repr

/-- The database state the popularity subsystem reads and writes. -/
structure DB where
  questions : List QuestionRow
  interactions : List Interaction
deriving DecidableEq, Repr

/-- The effect of the trigger's `UPDATE questions ... WHERE id =
NEW.question_id` statements on a single question row `q` for the freshly
inserted ledger row `ev`.  For a `view` event the update is
`view_count = view_count + 1, last_viewed_at = NEW.created_at`
(a plain assignment, not a max). -/
def applyEvent (ev : Interaction) (q : QuestionRow) : QuestionRow :=
  if q.id = ev.question_id then
    if ev.interaction_type = "view" then
      { q with view_count := q.view_count + 1, last_viewed_at := some ev.created_at }
    else if ev.interaction_type = "share" then
      { q with share_count := q.share_count + 1 }
    else if ev.interaction_type = "favorite" then
      { q with favorite_count := q.favorite_count + 1 }
    else q
  else q

/-- Embeds the trigger function `update_question_popularity` running
`AFTER INSERT ... FOR EACH ROW` for the freshly inserted ledger row `ev`:
each `UPDATE` statement updates every question row whose id matches. -/
def update_question_popularity (ev : Interaction) (qs : List QuestionRow) :
    List QuestionRow :=
  qs.map (applyEvent ev)

/-- Embeds `record_question_interaction(question_uuid, interaction_type_param,
user_uuid)`.  The SQL inserts `(question_id, user_id, interaction_type)` with
`created_at DEFAULT NOW()` and `ON CONFLICT DO NOTHING` against the unique key
`(question_id, user_id, interaction_type, created_at)`; the clock value is
passed explicitly here as `now`.  A conflicting insert adds no row, so the
`AFTER INSERT` trigger does not fire and the state is unchanged.  The function
body ends with `RETURN TRUE` in both cases (the `EXCEPTION` handler returning
FALSE is unreachable in the model, which has no external failures). -/
def record_question_interaction (question_uuid : Nat)
    (interaction_type_param : String) (user_uuid : Nat) (now : Int)
    (db : DB) : Bool × DB :=
  let ev : Interaction := ⟨question_uuid, user_uuid, interaction_type_param, now⟩
  if ev ∈ db.interactions then
    (true, db)
  else
    (true, { questions := update_question_popularity ev db.questions,
             interactions := db.interactions ++ [ev] })

/-- Number of ledger rows for item `qid` of interaction type `ty`. -/
def typeCount (ints : List Interaction) (qid : Nat) (ty : String) : Nat :=
  (ints.filter fun i => i.question_id == qid && i.interaction_type == ty).length

/-- The counters are a projection of the ledger: the ledger holds no duplicate
`(item, actor, type, timestamp)` tuple, and each question's three counters
equal the number of ledger rows of the corresponding type for that item. -/
def countersMatchLedger (db : DB) : Prop :=
  db.interactions.Nodup ∧
    ∀ q ∈ db.questions,
      q.view_count = typeCount db.interactions q.id "view" ∧
      q.share_count = typeCount db.interactions q.id "share" ∧
      q.favorite_count = typeCount db.interactions q.id "favorite"

instance (db : DB) : Decidable (countersMatchLedger db) := by
  unfold countersMatchLedger
  infer_instance

/-- One `record_question_interaction` call: (item, type, actor, timestamp). -/
abbrev Call := Nat × String × Nat × Int

/-- Apply a finite sequence of `record_question_interaction` calls. -/
def applyCalls (calls : List Call) (db : DB) : DB :=
  calls.foldl
    (fun s c => (record_question_interaction c.1 c.2.1 c.2.2.1 c.2.2.2 s).2) db

end Popularity

namespace Trending

/-- A row of the `questions` table as read by `get_trending_questions`
(`created_at` in epoch seconds). -/
structure TQuestion where
  id : Nat
  original_filename : String
  subject : String
  created_at : Int
  view_count : Nat
  favorite_count : Nat
  processing_status : String
deriving DecidableEq, Repr

/-- An output row of `get_trending_questions` (the metadata columns that are
copied through unchanged are represented by the id). -/
structure TrendRow where
  id : Nat
  created_at : Int
  view_count : Nat
  favorite_count : Nat
  trend_score : Rat
deriving DecidableEq, Repr

/-- Decimal value of a digit list. -/
def digitsToNat (cs : List Char) : Nat :=
  cs.foldl (fun acc c => acc * 10 + (c.toNat - 48)) 0

/-- PostgreSQL parsing of an interval literal, restricted to the shape
`"<digits> days"` that the migration intends.  Any string whose leading token
is not a number — in particular the literal `"%s days"` that actually appears
in the source — fails to parse, which PostgreSQL surfaces as an invalid-input
error for type interval when the statement first runs. -/
def parseIntervalDays (s : String) : Option Nat :=
  let cs := s.toList
  let n := cs.length
  if 5 < n then
    let digits := cs.take (n - 5)
    if cs.drop (n - 5) = [' ', 'd', 'a', 'y', 's'] ∧ digits.all Char.isDigit then
      some (digitsToNat digits)
    else none
  else none

/-- The order `ORDER BY trend_score DESC, q.created_at DESC`. -/
def trendRel (a b : TrendRow) : Prop :=
  b.trend_score < a.trend_score ∨
    (a.trend_score = b.trend_score ∧ b.created_at ≤ a.created_at)

instance : DecidableRel trendRel := fun a b => by
  unfold trendRel
  infer_instance

/-- The count `COALESCE(recent_views.count, 0)`: the number of `view` ledger rows for
question `qid` with `created_at >= cutoff`. -/
def recent_views_count (interactions : List Popularity.Interaction) (qid : Nat)
    (cutoff : Int) : Nat :=
  (interactions.filter fun i =>
    i.question_id == qid && i.interaction_type == "view" &&
      decide (cutoff ≤ i.created_at)).length

/-- Embeds `get_trending_questions(days_window, limit_count)`.  The recent-view
subquery filters on `qi.created_at >= NOW() - INTERVAL '%s days'`: the interval
literal is the literal string `%s days` (the `days_window` parameter is
never interpolated into it), so the statement fails with an invalid interval
literal on every call; had the literal parsed to `d` days, the function would
score each completed question by
`recent_views * 2.0 + favorite_count * 3.0 + age_in_days * (-0.1)` and return
the top `limit_count` rows by score (ties by most recent creation). -/
def get_trending_questions (days_window : Int) (limit_count : Nat)
    (questions : List TQuestion) (interactions : List Popularity.Interaction)
    (now : Int) : Except String (List TrendRow) :=
  match parseIntervalDays "%s days" with
  | none => Except.error "invalid input for type interval"
  | some d =>
      let cutoff := now - (d : Int) * 86400
      let rows :=
        (questions.filter fun q => q.processing_status == "completed").map fun q =>
          ⟨q.id, q.created_at, q.view_count, q.favorite_count,
            (recent_views_count interactions q.id cutoff : Rat) * 2 +
              (q.favorite_count : Rat) * 3 +
              ((now - q.created_at : Int) : Rat) / 86400 * (-(1 : Rat) / 10)⟩
      Except.ok ((List.insertionSort trendRel rows).take limit_count)

end Trending

namespace VectorSearch

/-- Descending order on a rational sort key: `a` may precede `b` iff
`key b ≤ key a`. -/
def simDescRel {α : Type _} (key : α → Rat) (a b : α) : Prop := key b ≤ key a

instance {α : Type _} (key : α → Rat) : DecidableRel (simDescRel key) :=
  fun a b => inferInstanceAs (Decidable (key b ≤ key a))

instance {α : Type _} (key : α → Rat) : IsTotal α (simDescRel key) :=
  ⟨fun a b => le_total (key b) (key a)⟩

instance {α : Type _} (key : α → Rat) : IsTrans α (simDescRel key) :=
  ⟨fun _ _ _ h1 h2 => le_trans h2 h1⟩

/-- Stable sort by descending key; ties keep their relative (table-storage)
order.  This models a SQL `ORDER BY <key> DESC` with no further sort key:
PostgreSQL specifies no order among ties, and the rows surface in scan
order. -/
def sortBySimDesc {α : Type _} (key : α → Rat) (l : List α) : List α :=
  List.insertionSort (simDescRel key) l

/-- A row of the `question_chunks` fragment table.  The embedding vector is
not stored explicitly: every query below takes the pgvector cosine-distance
operator `embedding <=> query_embedding` as an abstract per-row distance
function. -/
structure QuestionChunk where
  id : Nat
  content : String
  year : Option Int
  paper : Option String
  question_id : Option String
  subject : String
  topic : Option String
  sub_topic : Option String
  is_math_heavy : Bool
  confidence_score : Rat
deriving DecidableEq, Repr

/-- A row of the `syllabus_chunks` fragment table. -/
structure SyllabusChunk where
  id : Nat
  subject : String
  module : Option String
  topic_title : String
  chunk_text : String
  keywords : List String
  difficulty_level : Option String
deriving DecidableEq, Repr

/-- An output row of `match_question_chunks`. -/
structure QMatchRow where
  id : Nat
  content : String
  year : Option Int
  paper : Option String
  question_id : Option String
  subject : String
  topic : Option String
  sub_topic : Option String
  similarity : Rat
  is_math_heavy : Bool
  confidence_score : Rat
deriving DecidableEq, Repr

/-- An output row of `match_syllabus_sections`. -/
structure SMatchRow where
  id : Nat
  module : Option String
  topic_title : String
  chunk_text : String
  similarity : Rat
  keywords : List String
  difficulty_level : Option String
deriving DecidableEq, Repr

/-- An output row of `hybrid_search` (the `jsonb_build_object` metadata
payload carries columns already present on the source rows and is not
modelled). -/
structure HybridRow where
  source_table : String
  id : Nat
  content : String
  similarity : Rat
deriving DecidableEq, Repr

/-- Embeds `match_question_chunks(query_embedding, query_subject,
match_threshold, match_count)`: keep the rows of the requested subject with
`embedding <=> query_embedding < 1 - match_threshold`, project them with
`similarity = 1 - distance`, order by distance ascending — equivalently by
similarity descending, ties in storage order, since the SQL has no secondary
sort key — and take the first `match_count`. -/
def match_question_chunks (dist : QuestionChunk → Rat) (query_subject : String)
    (match_threshold : Rat) (match_count : Nat)
    (question_chunks : List QuestionChunk) : List QMatchRow :=
  (sortBySimDesc QMatchRow.similarity
    ((question_chunks.filter fun qc =>
        qc.subject == query_subject &&
          decide (dist qc < 1 - match_threshold)).map fun qc =>
      ⟨qc.id, qc.content, qc.year, qc.paper, qc.question_id, qc.subject,
        qc.topic, qc.sub_topic, 1 - dist qc, qc.is_math_heavy,
        qc.confidence_score⟩)).take match_count

/-- Embeds `match_syllabus_sections(query_embedding, query_subject,
match_threshold, match_count)`; same shape as `match_question_chunks` over
the syllabus collection. -/
def match_syllabus_sections (dist : SyllabusChunk → Rat) (query_subject : String)
    (match_threshold : Rat) (match_count : Nat)
    (syllabus_chunks : List SyllabusChunk) : List SMatchRow :=
  (sortBySimDesc SMatchRow.similarity
    ((syllabus_chunks.filter fun sc =>
        sc.subject == query_subject &&
          decide (dist sc < 1 - match_threshold)).map fun sc =>
      ⟨sc.id, sc.module, sc.topic_title, sc.chunk_text, 1 - dist sc,
        sc.keywords, sc.difficulty_level⟩)).take match_count

/-- One inner `SELECT` of `hybrid_search`: filter a collection, project each
kept row to a tagged result row, order by similarity descending (equivalently
by vector distance ascending) and take the per-collection budget `n`. -/
def partFor {α : Type _} (f : α → HybridRow) (p : α → Bool) (tab : List α)
    (n : Nat) : List HybridRow :=
  (sortBySimDesc HybridRow.similarity ((tab.filter p).map f)).take n

/-- Embeds `hybrid_search(query_embedding, query_subject, search_questions,
search_syllabus, match_threshold, match_count)`: each enabled collection is
queried like the match functions above, with per-collection budget
`match_count / 2` (SQL integer division) when the other collection is also
enabled and `match_count` otherwise; the two result sets are concatenated
(`UNION ALL`) and the concatenation is ordered by similarity descending. -/
def hybrid_search (dq : QuestionChunk → Rat) (ds : SyllabusChunk → Rat)
    (query_subject : String) (search_questions search_syllabus : Bool)
    (match_threshold : Rat) (match_count : Nat)
    (question_chunks : List QuestionChunk)
    (syllabus_chunks : List SyllabusChunk) : List HybridRow :=
  let qpart :=
    partFor (fun qc => ⟨"question_chunks", qc.id, qc.content, 1 - dq qc⟩)
      (fun qc => search_questions && qc.subject == query_subject &&
        decide (dq qc < 1 - match_threshold))
      question_chunks
      (if search_syllabus then match_count / 2 else match_count)
  let spart :=
    partFor (fun sc => ⟨"syllabus_chunks", sc.id, sc.chunk_text, 1 - ds sc⟩)
      (fun sc => search_syllabus && sc.subject == query_subject &&
        decide (ds sc < 1 - match_threshold))
      syllabus_chunks
      (if search_questions then match_count / 2 else match_count)
  sortBySimDesc HybridRow.similarity (qpart ++ spart)

end VectorSearch

namespace TopicStats

/-- A row of the `topic_stats` materialized view (`year` is non-NULL by the
view's `WHERE qc.year IS NOT NULL`). -/
structure TopicStatsRow where
  subject : String
  module : Option String
  topic_title : String
  year : Int
  occurrence_ct : Nat
deriving DecidableEq, Repr

/-- An output row of `get_topic_probability_stats`. -/
structure ProbRow where
  topic_title : String
  total_appearances : Nat
  years_appeared : Nat
  recent_appearances : Nat
  probability_score : Rat
  probability_category : String
deriving DecidableEq, Repr

/-- Embeds `get_topic_probability_stats(topic_name, subject_name, years_back)`
over the published `topic_stats` rows, with `current_year = EXTRACT(YEAR FROM
NOW())` passed explicitly.  The matching rows form a single `GROUP BY
ts.topic_title` group (all matching rows share the topic title); when no row
matches, the grouped query yields no group and the function returns zero rows.
`min_year = current_year - years_back`; the recent-year count is over rows with
`ts.year >= min_year` — the SQL puts no upper bound on the year. -/
def get_topic_probability_stats (topic_name subject_name : String)
    (years_back : Int) (current_year : Int)
    (topic_stats : List TopicStatsRow) : List ProbRow :=
  let rows := topic_stats.filter fun r =>
    r.topic_title == topic_name && r.subject == subject_name
  if rows.isEmpty then []
  else
    let min_year := current_year - years_back
    let recent := rows.filter fun r => decide (min_year ≤ r.year)
    let distinctYears := (rows.map TopicStatsRow.year).dedup
    let recentYears := (recent.map TopicStatsRow.year).dedup
    let denom : Rat := ((max years_back 1 : Int) : Rat)
    let catScore : Rat := (recentYears.length : Rat) / denom
    [⟨topic_name,
      (rows.map TopicStatsRow.occurrence_ct).sum,
      distinctYears.length,
      (recent.map TopicStatsRow.occurrence_ct).sum,
      if 0 < distinctYears.length then catScore else 0,
      if (7 : Rat) / 10 ≤ catScore then "High"
      else if (3 : Rat) / 10 ≤ catScore then "Medium"
      else "Low"⟩]

/-- The reappearance score as the specification's words define it — distinct
appearance years inside the two-sided window
`[current_year - years_back, current_year]`, divided by
`max(years_back, 1)`.  Stated only to compare with the implementation, whose
window has no upper bound. -/
def specWindowScore (topic_name subject_name : String) (years_back : Int)
    (current_year : Int) (topic_stats : List TopicStatsRow) : Rat :=
  let rows := topic_stats.filter fun r =>
    r.topic_title == topic_name && r.subject == subject_name
  let windowYears :=
    ((rows.filter fun r =>
        decide (current_year - years_back ≤ r.year ∧ r.year ≤ current_year)).map
      TopicStatsRow.year).dedup
  (windowYears.length : Rat) / ((max years_back 1 : Int) : Rat)

end TopicStats

namespace Refresh

/-- The state visible to aggregate readers: the published contents of the
`topic_stats` materialized view. -/
structure AggState where
  topic_stats : List TopicStats.TopicStatsRow
deriving DecidableEq, Repr

/-- Embeds `refresh_topic_stats()`.  `REFRESH MATERIALIZED VIEW
[CONCURRENTLY]` is transactional: on success it replaces the view contents
with the freshly computed rows, on failure it raises and leaves the contents
untouched.  The two attempts' outcomes are inputs (`conc` for the concurrent
refresh, `plain` for the non-concurrent fallback; `Except.error` models the
statement raising).  The plpgsql block catches a failure of the concurrent
refresh and falls back to the plain refresh; a failure of the fallback
propagates to the refresh caller as the returned error. -/
def refresh_topic_stats
    (conc plain : Except String (List TopicStats.TopicStatsRow))
    (s : AggState) : Except String Unit × AggState :=
  match conc with
  | Except.ok rows => (Except.ok (), ⟨rows⟩)
  | Except.error _ =>
      match plain with
      | Except.ok rows => (Except.ok (), ⟨rows⟩)
      | Except.error e => (Except.error e, s)

/-- An aggregate read: query callers see the published view contents. -/
def readTopicStats (s : AggState) : List TopicStats.TopicStatsRow :=
  s.topic_stats

end Refresh

namespace Popularity

theorem applyEvent_id (ev : Interaction) (q : QuestionRow) :
    (applyEvent ev q).id = q.id := by
  unfold applyEvent
  split_ifs <;> rfl

theorem applyEvent_view (ev : Interaction) (q : QuestionRow) :
    (applyEvent ev q).view_count =
      q.view_count +
        (if q.id = ev.question_id ∧ ev.interaction_type = "view" then 1 else 0) := by
  unfold applyEvent
  split_ifs with h1 h2 h3 h4 h5 <;> simp_all

theorem applyEvent_share (ev : Interaction) (q : QuestionRow) :
    (applyEvent ev q).share_count =
      q.share_count +
        (if q.id = ev.question_id ∧ ev.interaction_type = "share" then 1 else 0) := by
  unfold applyEvent
  split_ifs with h1 h2 h3 h4 h5 <;> simp_all

theorem applyEvent_favorite (ev : Interaction) (q : QuestionRow) :
    (applyEvent ev q).favorite_count =
      q.favorite_count +
        (if q.id = ev.question_id ∧ ev.interaction_type = "favorite" then 1 else 0) := by
  unfold applyEvent
  split_ifs with h1 h2 h3 h4 h5 <;> simp_all

theorem typeCount_append_single (ints : List Interaction) (ev : Interaction)
    (qid : Nat) (ty : String) :
    typeCount (ints ++ [ev]) qid ty =
      typeCount ints qid ty +
        (if ev.question_id = qid ∧ ev.interaction_type = ty then 1 else 0) := by
  unfold typeCount
  simp only [List.filter_append, List.length_append, List.filter_singleton]
  congr 1
  by_cases h1 : ev.question_id = qid <;> by_cases h2 : ev.interaction_type = ty <;>
    simp [h1, h2, cond_eq_if, beq_iff_eq]

theorem record_preserves_countersMatchLedger (question_uuid : Nat)
    (ty : String) (user_uuid : Nat) (now : Int) (db : DB)
    (h : countersMatchLedger db) :
    countersMatchLedger
      (record_question_interaction question_uuid ty user_uuid now db).2 := by
  unfold record_question_interaction
  by_cases hmem : (⟨question_uuid, user_uuid, ty, now⟩ : Interaction) ∈ db.interactions
  · simpa [hmem] using h
  · simp only [hmem, if_neg, if_false]
    refine ⟨?_, ?_⟩
    · simp [List.nodup_append, h.1, hmem]
    · intro q' hq'
      simp only [update_question_popularity, List.mem_map] at hq'
      obtain ⟨q0, hq0, rfl⟩ := hq'
      obtain ⟨hv, hs, hf⟩ := h.2 q0 hq0
      set ev : Interaction := ⟨question_uuid, user_uuid, ty, now⟩ with hev
      refine ⟨?_, ?_, ?_⟩
      · rw [applyEvent_view, applyEvent_id, typeCount_append_single, hv]
        exact congrArg _ (if_congr (and_congr_left' eq_comm) rfl rfl)
      · rw [applyEvent_share, applyEvent_id, typeCount_append_single, hs]
        exact congrArg _ (if_congr (and_congr_left' eq_comm) rfl rfl)
      · rw [applyEvent_favorite, applyEvent_id, typeCount_append_single, hf]
        exact congrArg _ (if_congr (and_congr_left' eq_comm) rfl rfl)

theorem applyCalls_preserves_countersMatchLedger (calls : List Call) (db : DB)
    (h : countersMatchLedger db) :
    countersMatchLedger (applyCalls calls db) := by
  induction calls generalizing db with
  | nil => simpa [applyCalls] using h
  | cons c rest ih =>
      simpa [applyCalls, List.foldl_cons] using
        ih _ (record_preserves_countersMatchLedger c.1 c.2.1 c.2.2.1 c.2.2.2 db h)

end Popularity

namespace Popularity

/-- C1.  After any finite sequence of `record_question_interaction` calls
starting from a consistent state, the ledger holds no duplicate
`(item, actor, type, timestamp)` tuple and every item's `view_count`,
`share_count` and `favorite_count` equal the number of ledger rows of the
corresponding type: a duplicate call conflicts on the unique key, inserts no
row, fires no trigger, and so leaves every counter unchanged.  In particular
(second conjunct) inserting the identical tuple
`(item = 1, actor = 7, type = view, ts = 100)` twice yields `view_count = 1`,
not 2. -/
theorem C1_counters_are_ledger_projection :
    (∀ (calls : List Call) (db : DB), countersMatchLedger db →
        countersMatchLedger (applyCalls calls db)) ∧
    (applyCalls [(1, "view", 7, 100), (1, "view", 7, 100)]
        ⟨[⟨1, 0, 0, 0, none⟩], []⟩).questions.map QuestionRow.view_count =
      [1] :=
  ⟨applyCalls_preserves_countersMatchLedger, by decide⟩

/-- Witness for C1 at a concrete input: the double insertion of the same
tuple plus one distinct favorite leave the counters equal to the distinct
ledger rows. -/
theorem C1_counters_are_ledger_projection_witness :
    countersMatchLedger
      (applyCalls [(1, "view", 7, 100), (1, "view", 7, 100), (1, "favorite", 8, 200)]
        ⟨[⟨1, 0, 0, 0, none⟩], []⟩) :=
  C1_counters_are_ledger_projection.1 _ _ (by decide)

/-- C7 is false of the code: `update_question_popularity` assigns
`last_viewed_at = NEW.created_at` unconditionally, so a successful view
insertion with an older out-of-order timestamp (300 after 500) regresses
`last_viewed_at` from 500 to 300 instead of keeping `max(500, 300) = 500`. -/
theorem C7_counterexample :
    ((record_question_interaction 1 "view" 7 500
        ⟨[⟨1, 0, 0, 0, none⟩], []⟩).2).questions.map QuestionRow.last_viewed_at =
      [some 500] ∧
    ((record_question_interaction 1 "view" 7 300
        (record_question_interaction 1 "view" 7 500
          ⟨[⟨1, 0, 0, 0, none⟩], []⟩).2).2).questions.map
        QuestionRow.last_viewed_at = [some 300] ∧
    (300 : Int) ≠ max 500 300 := by decide

/-- C7 amended: a successful (non-duplicate) view insertion sets
`last_viewed_at` of the item to the event timestamp unconditionally — not to
`max(existing, event timestamp)` — so an out-of-order older view event makes
`last_viewed_at` regress. -/
theorem C7_amended_last_viewed_is_plain_assignment (db : DB) (qid u : Nat)
    (ts : Int) (h : (⟨qid, u, "view", ts⟩ : Interaction) ∉ db.interactions) :
    ∀ q' ∈ (record_question_interaction qid "view" u ts db).2.questions,
      q'.id = qid → q'.last_viewed_at = some ts := by
  intro q' hq' hid
  unfold record_question_interaction at hq'
  rw [if_neg h] at hq'
  simp only [update_question_popularity, List.mem_map] at hq'
  obtain ⟨q0, hq0, rfl⟩ := hq'
  rw [applyEvent_id] at hid
  simp [applyEvent, hid]

/-- Witness for the amended C7: recording a view at timestamp 300 over an item
whose `last_viewed_at` is 500 leaves the (regressed) value 300. -/
theorem C7_amended_witness :
    (⟨1, 1, 0, 0, some 300⟩ : QuestionRow).last_viewed_at = some 300 :=
  C7_amended_last_viewed_is_plain_assignment ⟨[⟨1, 0, 0, 0, some 500⟩], []⟩ 1 7 300
    (by decide) ⟨1, 1, 0, 0, some 300⟩ (by decide) (by decide)

/-- C8 is false as stated: `record_question_interaction` returns BOOLEAN and
`RETURN TRUE` is reached for both a fresh insertion (first call — the state
changes) and a suppressed duplicate (second call — the state is unchanged), so
the returned status does not distinguish `recorded` from `duplicate`. -/
theorem C8_counterexample :
    ((record_question_interaction 1 "view" 7 100
        ⟨[⟨1, 0, 0, 0, none⟩], []⟩).1 = true ∧
      (record_question_interaction 1 "view" 7 100
          ⟨[⟨1, 0, 0, 0, none⟩], []⟩).2 ≠ ⟨[⟨1, 0, 0, 0, none⟩], []⟩) ∧
    ((record_question_interaction 1 "view" 7 100
        (record_question_interaction 1 "view" 7 100
          ⟨[⟨1, 0, 0, 0, none⟩], []⟩).2).1 = true ∧
      (record_question_interaction 1 "view" 7 100
          (record_question_interaction 1 "view" 7 100
            ⟨[⟨1, 0, 0, 0, none⟩], []⟩).2).2 =
        (record_question_interaction 1 "view" 7 100
          ⟨[⟨1, 0, 0, 0, none⟩], []⟩).2) := by decide

/-- C8 amended: the call never fails the caller-visible flow — it returns TRUE
on every input — and a call whose (item, actor, type, timestamp) tuple already
exists in the ledger is a no-op on the state, not an error; but the TRUE
status is identical to that of a fresh insertion, so the caller cannot tell
`recorded` from `duplicate` by the return value. -/
theorem C8_amended_always_true_duplicate_noop (question_uuid : Nat)
    (ty : String) (user_uuid : Nat) (now : Int) (db : DB) :
    (record_question_interaction question_uuid ty user_uuid now db).1 = true ∧
    ((⟨question_uuid, user_uuid, ty, now⟩ : Interaction) ∈ db.interactions →
      (record_question_interaction question_uuid ty user_uuid now db).2 = db) := by
  unfold record_question_interaction
  refine ⟨?_, ?_⟩
  · dsimp only
    split_ifs <;> rfl
  · intro hmem
    simp [hmem]

/-- Witness for the amended C8: the duplicate call on a ledger already holding
the tuple returns TRUE and leaves the state unchanged. -/
theorem C8_amended_witness :
    (record_question_interaction 1 "view" 7 100
        ⟨[], [⟨1, 7, "view", 100⟩]⟩).1 = true ∧
    (record_question_interaction 1 "view" 7 100
        ⟨[], [⟨1, 7, "view", 100⟩]⟩).2 = ⟨[], [⟨1, 7, "view", 100⟩]⟩ :=
  ⟨(C8_amended_always_true_duplicate_noop 1 "view" 7 100 _).1,
    (C8_amended_always_true_duplicate_noop 1 "view" 7 100 _).2 (by decide)⟩

end Popularity

namespace Trending

theorem parseIntervalDays_percent_s : parseIntervalDays "%s days" = none := by
  decide

/-- C6 (code bug).  The trend-score formula of the claim
(`recentViews * 2.0 + favorite_count * 3.0 + ageInDays * (-0.1)`, completed
items only, score-descending with creation-time tie-break) is what the SQL
body writes — but the recent-views window filter reads
`NOW() - INTERVAL '%s days'` with `%s` as literal text, so every call of
`get_trending_questions` fails with an invalid interval literal instead of
returning the ranked list; no argument value avoids the error. -/
theorem C6_trending_always_errors (days_window : Int) (limit_count : Nat)
    (questions : List TQuestion) (interactions : List Popularity.Interaction)
    (now : Int) :
    get_trending_questions days_window limit_count questions interactions now =
      Except.error "invalid input for type interval" := by
  unfold get_trending_questions
  rw [parseIntervalDays_percent_s]

end Trending

namespace Refresh

/-- C5.  If an aggregate refresh fails mid-computation (both the concurrent
attempt and the non-concurrent fallback raise), the previously published
aggregate version stays untouched: the state is unchanged, every aggregate
read returns the same rows before and after, and in particular every
`get_topic_probability_stats` query over the published rows is unaffected.
The failure is the refresh call's own return value — reads carry no error. -/
theorem C5_failed_refresh_preserves_published
    (conc plain : Except String (List TopicStats.TopicStatsRow))
    (s : AggState) (e : String)
    (h : (refresh_topic_stats conc plain s).1 = Except.error e) :
    (refresh_topic_stats conc plain s).2 = s ∧
    readTopicStats (refresh_topic_stats conc plain s).2 = readTopicStats s ∧
    ∀ (topic subject : String) (yb cy : Int),
      TopicStats.get_topic_probability_stats topic subject yb cy
          (readTopicStats (refresh_topic_stats conc plain s).2) =
        TopicStats.get_topic_probability_stats topic subject yb cy
          (readTopicStats s) := by
  cases conc with
  | ok rows => simp [refresh_topic_stats] at h
  | error e1 =>
      cases plain with
      | ok rows => simp [refresh_topic_stats] at h
      | error e2 => simp [refresh_topic_stats]

/-- Witness for C5: a refresh whose two attempts both fail leaves a concrete
one-row published version fully readable and unchanged. -/
theorem C5_failed_refresh_witness :
    (refresh_topic_stats (Except.error "deadlock") (Except.error "disk full")
        (⟨[⟨"Pure Mathematics", none, "Differentiation", 2020, 2⟩]⟩ : AggState)).2 =
      ⟨[⟨"Pure Mathematics", none, "Differentiation", 2020, 2⟩]⟩ ∧
    TopicStats.get_topic_probability_stats "Differentiation" "Pure Mathematics"
        10 2026
        (readTopicStats
          (refresh_topic_stats (Except.error "deadlock") (Except.error "disk full")
            (⟨[⟨"Pure Mathematics", none, "Differentiation", 2020, 2⟩]⟩ : AggState)).2) =
      TopicStats.get_topic_probability_stats "Differentiation" "Pure Mathematics"
        10 2026
        (readTopicStats
          (⟨[⟨"Pure Mathematics", none, "Differentiation", 2020, 2⟩]⟩ : AggState)) :=
  ⟨(C5_failed_refresh_preserves_published (Except.error "deadlock")
      (Except.error "disk full")
      ⟨[⟨"Pure Mathematics", none, "Differentiation", 2020, 2⟩]⟩
      "disk full" rfl).1,
    (C5_failed_refresh_preserves_published (Except.error "deadlock")
      (Except.error "disk full")
      ⟨[⟨"Pure Mathematics", none, "Differentiation", 2020, 2⟩]⟩
      "disk full" rfl).2.2 "Differentiation" "Pure Mathematics" 10 2026⟩

end Refresh

namespace TopicStats

/-- C9 is false as stated: with no aggregate rows for the topic and subject
the grouped query produces zero groups, so `get_topic_probability_stats`
returns an empty result set — not a row with `score = 0, category = Low` —
both on an empty aggregate table and on a table whose rows all belong to a
different topic. -/
theorem C9_counterexample :
    get_topic_probability_stats "Differentiation" "Pure Mathematics" 10 2026
        [] = [] ∧
    get_topic_probability_stats "Differentiation" "Pure Mathematics" 10 2026
        [⟨"Pure Mathematics", none, "Integration", 2024, 3⟩] = [] := by
  decide

/-- C9 amended: when no aggregate rows exist for the topic and subject, the
probability operation returns an empty result set — zero rows, no error; the
`score = 0 / Low` row of the claim is never produced (the `ELSE 0.0` branch of
the SQL is unreachable: a group always contains at least one year). -/
theorem C9_amended_no_rows_empty_result (topic subject : String) (yb cy : Int)
    (tab : List TopicStatsRow)
    (h : ∀ r ∈ tab, ¬(r.topic_title = topic ∧ r.subject = subject)) :
    get_topic_probability_stats topic subject yb cy tab = [] := by
  unfold get_topic_probability_stats
  have hfil : (tab.filter fun r =>
      r.topic_title == topic && r.subject == subject) = [] := by
    rw [List.filter_eq_nil_iff]
    intro r hr
    simpa [not_and] using h r hr
  simp [hfil]

/-- Witness for the amended C9 on a one-row table for a different subject. -/
theorem C9_amended_witness :
    get_topic_probability_stats "Kinematics" "Physics" 5 2026
        [⟨"Pure Mathematics", none, "Kinematics", 2024, 1⟩] = [] :=
  C9_amended_no_rows_empty_result "Kinematics" "Physics" 5 2026 _ (by decide)

theorem map_filter_eq_filter_map {α β : Type _} (f : α → β) (p : β → Bool)
    (l : List α) :
    (l.filter fun a => p (f a)).map f = (l.map f).filter p := by
  induction l with
  | nil => rfl
  | cons a l ih => by_cases h : p (f a) <;> simp [h, ih]

/-- C2 is false as stated: the SQL counts distinct years `>= current_year -
years_back` with no upper bound, so a future-dated aggregate row (year 2040,
current year 2026, lookback 10) scores 1/10 where the claim's two-sided
window `[2016, 2026]` contains no appearance year and yields 0. -/
theorem C2_counterexample :
    (get_topic_probability_stats "Differentiation" "Pure Mathematics" 10 2026
        [⟨"Pure Mathematics", none, "Differentiation", 2040, 1⟩]).map
      ProbRow.probability_score = [1 / 10] ∧
    specWindowScore "Differentiation" "Pure Mathematics" 10 2026
        [⟨"Pure Mathematics", none, "Differentiation", 2040, 1⟩] = 0 ∧
    ((1 : Rat) / 10 ≠ 0) := by
  refine ⟨?_, ?_, by norm_num⟩
  · simp [get_topic_probability_stats]
  · simp [specWindowScore]

/-- C2 amended: for every row the probability operation returns, the score
equals the number of distinct appearance years in the one-sided window
`year ≥ currentYear − yearsBack` — the SQL places no upper bound on the
year — divided by `max(yearsBack, 1)`, and the category is High at
score ≥ 0.7, Medium at 0.3 ≤ score < 0.7, else Low.  The claim's example
stands: occurrences in 8 of the last 10 years with `yearsBack = 10` give
score 8/10 and category High (second conjunct). -/
theorem C2_amended_score_open_window (topic subject : String) (yb cy : Int)
    (tab : List TopicStatsRow) :
    (∀ r ∈ get_topic_probability_stats topic subject yb cy tab,
        r.probability_score =
          ((((tab.filter fun x =>
                  x.topic_title == topic && x.subject == subject).map
                TopicStatsRow.year).toFinset.filter fun y =>
              cy - yb ≤ y).card : Rat) / ((max yb 1 : Int) : Rat) ∧
        r.probability_category =
          (if (7 : Rat) / 10 ≤ r.probability_score then "High"
           else if (3 : Rat) / 10 ≤ r.probability_score then "Medium"
           else "Low")) ∧
    get_topic_probability_stats "Differentiation" "Pure Mathematics" 10 2026
        [⟨"Pure Mathematics", none, "Differentiation", 2018, 1⟩,
          ⟨"Pure Mathematics", none, "Differentiation", 2019, 1⟩,
          ⟨"Pure Mathematics", none, "Differentiation", 2020, 1⟩,
          ⟨"Pure Mathematics", none, "Differentiation", 2021, 1⟩,
          ⟨"Pure Mathematics", none, "Differentiation", 2022, 1⟩,
          ⟨"Pure Mathematics", none, "Differentiation", 2023, 1⟩,
          ⟨"Pure Mathematics", none, "Differentiation", 2024, 1⟩,
          ⟨"Pure Mathematics", none, "Differentiation", 2025, 1⟩] =
      [⟨"Differentiation", 8, 8, 8, 8 / 10, "High"⟩] := by
  constructor
  · intro r hr
    simp only [get_topic_probability_stats] at hr
    split at hr
    · exact absurd hr (List.not_mem_nil r)
    · rename_i hemp
      rw [List.mem_singleton] at hr
      subst hr
      have hne : (tab.filter fun x =>
          x.topic_title == topic && x.subject == subject) ≠ [] := by
        simpa [List.isEmpty_iff] using hemp
      have hpos : 0 <
          (((tab.filter fun x =>
              x.topic_title == topic && x.subject == subject).map
            TopicStatsRow.year).dedup).length := by
        rw [List.length_pos]
        simp [List.dedup_eq_nil, hne]
      have hrec :
          ((((tab.filter fun x =>
                x.topic_title == topic && x.subject == subject).filter fun x =>
              decide (cy - yb ≤ x.year)).map TopicStatsRow.year).dedup).length =
            (((tab.filter fun x =>
                  x.topic_title == topic && x.subject == subject).map
                TopicStatsRow.year).toFinset.filter fun y => cy - yb ≤ y).card := by
        rw [map_filter_eq_filter_map TopicStatsRow.year
          (fun y => decide (cy - yb ≤ y))]
        rw [← List.card_toFinset, List.toFinset_filter]
        congr 1
        apply Finset.filter_congr
        intro y _
        simp
      dsimp only
      refine ⟨?_, ?_⟩
      · rw [if_pos hpos]
        exact congrArg
          (fun n : Nat => (n : Rat) / ((max yb 1 : Int) : Rat)) hrec
      · rw [if_pos hpos]
  · simp [get_topic_probability_stats]
    norm_num

end TopicStats

namespace VectorSearch

theorem sortBySimDesc_sorted {α : Type _} (key : α → Rat) (l : List α) :
    List.Sorted (simDescRel key) (sortBySimDesc key l) :=
  List.sorted_insertionSort (simDescRel key) l

theorem sortBySimDesc_perm {α : Type _} (key : α → Rat) (l : List α) :
    (sortBySimDesc key l).Perm l :=
  List.perm_insertionSort (simDescRel key) l

theorem sorted_take_sortBySimDesc {α : Type _} (key : α → Rat) (l : List α)
    (n : Nat) :
    List.Sorted (simDescRel key) ((sortBySimDesc key l).take n) :=
  (sortBySimDesc_sorted key l).sublist
    (List.take_sublist n (sortBySimDesc key l))

theorem mem_of_mem_take_sortBySimDesc {α : Type _} (key : α → Rat)
    (l : List α) (n : Nat) (r : α) (h : r ∈ (sortBySimDesc key l).take n) :
    r ∈ l :=
  (sortBySimDesc_perm key l).mem_iff.mp
    (List.take_subset n (sortBySimDesc key l) h)

theorem exists_src_of_mem_part {α β : Type _} (key : β → Rat) (f : α → β)
    (p : α → Bool) (tab : List α) (n : Nat) (r : β)
    (h : r ∈ (sortBySimDesc key ((tab.filter p).map f)).take n) :
    ∃ a, a ∈ tab ∧ p a = true ∧ r = f a := by
  have h1 : r ∈ (tab.filter p).map f :=
    mem_of_mem_take_sortBySimDesc key _ n r h
  obtain ⟨a, ha, rfl⟩ := List.mem_map.mp h1
  exact ⟨a, (List.mem_filter.mp ha).1, (List.mem_filter.mp ha).2, rfl⟩

/-- C3 is false as stated: the SQL orders only by vector distance, with no
secondary key, so equal-similarity fragments are not returned in fragment-id
order.  With two fragments of identical distance 1/2 stored as ids 2 then 1,
the result lists id 2 before id 1 — the (similarity, id) projection is not
sorted ascending by id within the tie. -/
theorem C3_counterexample :
    (match_question_chunks (fun _ => 1 / 2) "S" 0 10
        [⟨2, "b", none, none, none, "S", none, none, false, 1⟩,
          ⟨1, "a", none, none, none, "S", none, none, false, 1⟩]).map
      (fun r => (r.similarity, r.id)) = [(1 / 2, 2), (1 / 2, 1)] ∧
    ¬ List.Sorted (fun a b : Rat × Nat => a.2 ≤ b.2)
        ((match_question_chunks (fun _ => 1 / 2) "S" 0 10
            [⟨2, "b", none, none, none, "S", none, none, false, 1⟩,
              ⟨1, "a", none, none, none, "S", none, none, false, 1⟩]).map
          fun r => (r.similarity, r.id)) := by
  have hev : (match_question_chunks (fun _ => 1 / 2) "S" 0 10
      [⟨2, "b", none, none, none, "S", none, none, false, 1⟩,
        ⟨1, "a", none, none, none, "S", none, none, false, 1⟩]).map
      (fun r => (r.similarity, r.id)) = [(1 / 2, 2), (1 / 2, 1)] := by
    norm_num [match_question_chunks, sortBySimDesc, simDescRel]
  refine ⟨hev, ?_⟩
  rw [hev]
  intro hsort
  have := List.rel_of_sorted_cons hsort (1 / 2, 1) (List.mem_singleton.mpr rfl)
  omega

/-- C3 amended: the vector query returns only fragments of the given subject
whose similarity is strictly above (hence at least) the threshold, at most
`k` of them, ordered descending by similarity — but ties in similarity are
NOT broken by fragment id: the SQL orders by distance only, and equal-distance
rows surface in unspecified (storage) order.  Both collection queries satisfy
the contract; the syllabus variant does not expose the subject column, so its
subject guarantee is stated over the source fragment: every returned row is
the projection of a stored syllabus fragment carrying the query's subject. -/
theorem C3_amended_query_contract (dq : QuestionChunk → Rat)
    (ds : SyllabusChunk → Rat) (subj : String) (thr : Rat) (k : Nat)
    (qtab : List QuestionChunk) (stab : List SyllabusChunk) :
    ((match_question_chunks dq subj thr k qtab).length ≤ k ∧
      List.Sorted (simDescRel QMatchRow.similarity)
        (match_question_chunks dq subj thr k qtab) ∧
      ∀ r ∈ match_question_chunks dq subj thr k qtab,
        r.subject = subj ∧ thr < r.similarity) ∧
    ((match_syllabus_sections ds subj thr k stab).length ≤ k ∧
      List.Sorted (simDescRel SMatchRow.similarity)
        (match_syllabus_sections ds subj thr k stab) ∧
      ∀ r ∈ match_syllabus_sections ds subj thr k stab,
        thr < r.similarity ∧
          ∃ sc ∈ stab, sc.subject = subj ∧
            r = ⟨sc.id, sc.module, sc.topic_title, sc.chunk_text, 1 - ds sc,
              sc.keywords, sc.difficulty_level⟩) := by
  refine ⟨⟨?_, ?_, ?_⟩, ?_, ?_, ?_⟩
  · exact List.length_take_le k _
  · exact sorted_take_sortBySimDesc _ _ k
  · intro r hr
    obtain ⟨qc, hqc, hp, rfl⟩ := exists_src_of_mem_part _ _ _ _ _ _ hr
    simp only [Bool.and_eq_true, beq_iff_eq, decide_eq_true_eq] at hp
    obtain ⟨hsub, hd⟩ := hp
    refine ⟨hsub, ?_⟩
    dsimp only
    linarith
  · exact List.length_take_le k _
  · exact sorted_take_sortBySimDesc _ _ k
  · intro r hr
    obtain ⟨sc, hsc, hp, rfl⟩ := exists_src_of_mem_part _ _ _ _ _ _ hr
    simp only [Bool.and_eq_true, beq_iff_eq, decide_eq_true_eq] at hp
    obtain ⟨hsub, hd⟩ := hp
    refine ⟨?_, sc, hsc, hsub, rfl⟩
    dsimp only
    linarith

/-- Witness for the amended C3 on one-row collections: each returned fragment
beats the threshold and carries (for the question query) or stems from a
stored fragment carrying (for the syllabus query) the query's subject. -/
theorem C3_amended_witness :
    (match_question_chunks (fun _ => 1 / 2) "S" 0 5
        [⟨1, "a", none, none, none, "S", none, none, false, 1⟩]).length ≤ 5 ∧
    ((⟨1, "a", none, none, none, "S", none, none, 1 / 2, false, 1⟩ :
        QMatchRow).subject = "S" ∧
      (0 : Rat) <
        (⟨1, "a", none, none, none, "S", none, none, 1 / 2, false, 1⟩ :
          QMatchRow).similarity) ∧
    ((0 : Rat) <
        (⟨2, none, "T", "t", 1 / 2, [], none⟩ : SMatchRow).similarity ∧
      ∃ sc ∈ ([⟨2, "S", none, "T", "t", [], none⟩] : List SyllabusChunk),
        sc.subject = "S" ∧
          (⟨2, none, "T", "t", 1 / 2, [], none⟩ : SMatchRow) =
            ⟨sc.id, sc.module, sc.topic_title, sc.chunk_text, 1 - 1 / 2,
              sc.keywords, sc.difficulty_level⟩) :=
  ⟨(C3_amended_query_contract (fun _ => 1 / 2) (fun _ => 1 / 2) "S" 0 5
      [⟨1, "a", none, none, none, "S", none, none, false, 1⟩]
      [⟨2, "S", none, "T", "t", [], none⟩]).1.1,
    (C3_amended_query_contract (fun _ => 1 / 2) (fun _ => 1 / 2) "S" 0 5
      [⟨1, "a", none, none, none, "S", none, none, false, 1⟩]
      [⟨2, "S", none, "T", "t", [], none⟩]).1.2.2
      ⟨1, "a", none, none, none, "S", none, none, 1 / 2, false, 1⟩
      (by norm_num [match_question_chunks, sortBySimDesc, simDescRel]),
    (C3_amended_query_contract (fun _ => 1 / 2) (fun _ => 1 / 2) "S" 0 5
      [⟨1, "a", none, none, none, "S", none, none, false, 1⟩]
      [⟨2, "S", none, "T", "t", [], none⟩]).2.2.2
      ⟨2, none, "T", "t", 1 / 2, [], none⟩
      (by norm_num [match_syllabus_sections, sortBySimDesc, simDescRel])⟩

theorem length_partFor_le {α : Type _} (f : α → HybridRow) (p : α → Bool)
    (tab : List α) (n : Nat) : (partFor f p tab n).length ≤ n :=
  List.length_take_le n _

theorem exists_src_of_mem_partFor {α : Type _} (f : α → HybridRow)
    (p : α → Bool) (tab : List α) (n : Nat) (r : HybridRow)
    (h : r ∈ partFor f p tab n) : ∃ a, a ∈ tab ∧ p a = true ∧ r = f a :=
  exists_src_of_mem_part HybridRow.similarity f p tab n r h

/-- C4.  With both collections enabled, `hybrid_search` returns at most
`limit` rows in total, each collection contributing at most `limit / 2`
(integer division) of them; the output is sorted by similarity descending and
every returned row's similarity is strictly above (hence at least) the
supplied threshold.  The SQL body consists only of the two vector queries and
the merge — no lexical fallback statement exists, so a fortiori a fallback is
invoked only when a collection's similarity results are empty (vacuously), and
every row of the output comes from a vector query and beats the threshold. -/
theorem C4_hybrid_both_collections (dq : QuestionChunk → Rat)
    (ds : SyllabusChunk → Rat) (subj : String) (thr : Rat) (cnt : Nat)
    (qtab : List QuestionChunk) (stab : List SyllabusChunk) :
    (hybrid_search dq ds subj true true thr cnt qtab stab).length ≤ cnt ∧
    (hybrid_search dq ds subj true true thr cnt qtab stab).countP
        (fun r => r.source_table == "question_chunks") ≤ cnt / 2 ∧
    (hybrid_search dq ds subj true true thr cnt qtab stab).countP
        (fun r => r.source_table == "syllabus_chunks") ≤ cnt / 2 ∧
    List.Sorted (simDescRel HybridRow.similarity)
      (hybrid_search dq ds subj true true thr cnt qtab stab) ∧
    ∀ r ∈ hybrid_search dq ds subj true true thr cnt qtab stab,
      thr < r.similarity := by
  simp only [hybrid_search, if_true]
  set qpart := partFor
    (fun qc : QuestionChunk => ⟨"question_chunks", qc.id, qc.content, 1 - dq qc⟩)
    (fun qc => true && qc.subject == subj && decide (dq qc < 1 - thr))
    qtab (cnt / 2) with hqdef
  set spart := partFor
    (fun sc : SyllabusChunk => ⟨"syllabus_chunks", sc.id, sc.chunk_text, 1 - ds sc⟩)
    (fun sc => true && sc.subject == subj && decide (ds sc < 1 - thr))
    stab (cnt / 2) with hsdef
  have hperm := sortBySimDesc_perm HybridRow.similarity (qpart ++ spart)
  have hql : qpart.length ≤ cnt / 2 := length_partFor_le _ _ _ _
  have hsl : spart.length ≤ cnt / 2 := length_partFor_le _ _ _ _
  refine ⟨?_, ?_, ?_, ?_, ?_⟩
  · rw [hperm.length_eq, List.length_append]
    omega
  · rw [hperm.countP_eq, List.countP_append]
    have h0 : spart.countP (fun r => r.source_table == "question_chunks") = 0 := by
      rw [List.countP_eq_zero]
      intro r hr
      obtain ⟨sc, _, _, rfl⟩ := exists_src_of_mem_partFor _ _ _ _ r hr
      simp
    have h1 : qpart.countP (fun r => r.source_table == "question_chunks") ≤
        qpart.length := List.countP_le_length _
    omega
  · rw [hperm.countP_eq, List.countP_append]
    have h0 : qpart.countP (fun r => r.source_table == "syllabus_chunks") = 0 := by
      rw [List.countP_eq_zero]
      intro r hr
      obtain ⟨qc, _, _, rfl⟩ := exists_src_of_mem_partFor _ _ _ _ r hr
      simp
    have h1 : spart.countP (fun r => r.source_table == "syllabus_chunks") ≤
        spart.length := List.countP_le_length _
    omega
  · exact sortBySimDesc_sorted _ _
  · intro r hr
    rcases List.mem_append.mp (hperm.mem_iff.mp hr) with hq | hs
    · obtain ⟨qc, _, hp, rfl⟩ := exists_src_of_mem_partFor _ _ _ _ r hq
      simp only [Bool.true_and, Bool.and_eq_true, beq_iff_eq,
        decide_eq_true_eq] at hp
      dsimp only
      linarith [hp.2]
    · obtain ⟨sc, _, hp, rfl⟩ := exists_src_of_mem_partFor _ _ _ _ r hs
      simp only [Bool.true_and, Bool.and_eq_true, beq_iff_eq,
        decide_eq_true_eq] at hp
      dsimp only
      linarith [hp.2]

/-- Witness for C4 on one-row collections: the merged result respects the
total budget and its question-sourced row beats the threshold. -/
theorem C4_hybrid_witness :
    (hybrid_search (fun _ => 1 / 2) (fun _ => 1 / 2) "S" true true 0 10
        [⟨1, "a", none, none, none, "S", none, none, false, 1⟩]
        [⟨2, "S", none, "T", "t", [], none⟩]).length ≤ 10 ∧
    (0 : Rat) <
      (⟨"question_chunks", 1, "a", 1 / 2⟩ : HybridRow).similarity :=
  ⟨(C4_hybrid_both_collections (fun _ => 1 / 2) (fun _ => 1 / 2) "S" 0 10
      [⟨1, "a", none, none, none, "S", none, none, false, 1⟩]
      [⟨2, "S", none, "T", "t", [], none⟩]).1,
    (C4_hybrid_both_collections (fun _ => 1 / 2) (fun _ => 1 / 2) "S" 0 10
      [⟨1, "a", none, none, none, "S", none, none, false, 1⟩]
      [⟨2, "S", none, "T", "t", [], none⟩]).2.2.2.2
      ⟨"question_chunks", 1, "a", 1 / 2⟩
      (by norm_num [hybrid_search, partFor, sortBySimDesc, simDescRel])⟩

theorem partFor_empty {α : Type _} (f : α → HybridRow) (p : α → Bool)
    (tab : List α) (n : Nat) (hp : ∀ a ∈ tab, p a = false) :
    partFor f p tab n = [] := by
  unfold partFor
  have hfil : tab.filter p = [] :=
    List.filter_eq_nil_iff.mpr (by intro a ha; simp [hp a ha])
  simp [hfil, sortBySimDesc]

theorem partFor_full_length {α : Type _} (f : α → HybridRow) (p : α → Bool)
    (tab : List α) (n : Nat) (hp : ∀ a ∈ tab, p a = true)
    (hn : tab.length ≤ n) : (partFor f p tab n).length = tab.length := by
  unfold partFor
  rw [List.filter_eq_self.mpr hp]
  simp only [sortBySimDesc, List.length_take, List.length_insertionSort,
    List.length_map]
  omega

/-- C10.  For an odd limit `L` with both collections enabled each
per-collection budget is `L / 2` rounded down, so at most
`2 * (L / 2) = L - 1` rows come back in total no matter how full the
collections are; with exactly one collection enabled the budget is the whole
`L` and is reached, e.g. by a question collection holding `L` fragments of
the query's subject above the threshold (second conjunct). -/
theorem C10_odd_limit_budget (L : Nat) (hL : Odd L) (dq : QuestionChunk → Rat)
    (ds : SyllabusChunk → Rat) (subj : String) (thr : Rat)
    (qtab : List QuestionChunk) (stab : List SyllabusChunk) :
    (hybrid_search dq ds subj true true thr L qtab stab).length ≤ L - 1 ∧
    (hybrid_search (fun _ => 0) ds "S" true false 0 L
        (List.replicate L ⟨1, "c", none, none, none, "S", none, none, false, 1⟩)
        stab).length = L := by
  constructor
  · obtain ⟨m, hm⟩ := hL
    subst hm
    simp only [hybrid_search, if_true]
    rw [(sortBySimDesc_perm HybridRow.similarity _).length_eq,
      List.length_append]
    have h1 := length_partFor_le
      (fun qc : QuestionChunk =>
        (⟨"question_chunks", qc.id, qc.content, 1 - dq qc⟩ : HybridRow))
      (fun qc => true && qc.subject == subj && decide (dq qc < 1 - thr))
      qtab ((2 * m + 1) / 2)
    have h2 := length_partFor_le
      (fun sc : SyllabusChunk =>
        (⟨"syllabus_chunks", sc.id, sc.chunk_text, 1 - ds sc⟩ : HybridRow))
      (fun sc => true && sc.subject == subj && decide (ds sc < 1 - thr))
      stab ((2 * m + 1) / 2)
    omega
  · unfold hybrid_search
    dsimp only
    rw [(sortBySimDesc_perm HybridRow.similarity _).length_eq,
      List.length_append]
    rw [partFor_empty _ _ stab _ (by intro a ha; simp)]
    rw [partFor_full_length _ _ _ _
      (by
        intro a ha
        rw [List.eq_of_mem_replicate ha]
        norm_num)
      (by simp)]
    simp

/-- Witness for C10 at the odd limit 5: both collections enabled give at most
4 rows; one enabled collection over 5 matching fragments gives exactly 5. -/
theorem C10_odd_limit_witness :
    (hybrid_search (fun _ => 0) (fun _ => 0) "X" true true 0 5
        ([] : List QuestionChunk) ([] : List SyllabusChunk)).length ≤ 4 ∧
    (hybrid_search (fun _ => 0) (fun _ => 0) "S" true false 0 5
        (List.replicate 5 ⟨1, "c", none, none, none, "S", none, none, false, 1⟩)
        ([] : List SyllabusChunk)).length = 5 :=
  C10_odd_limit_budget 5 ⟨2, by norm_num⟩ (fun _ => 0) (fun _ => 0) "X" 0 [] []

end VectorSearch

namespace TopicStats

/-- Witness for the amended C2: on a single aggregate row dated 2040 (outside
the claim's two-sided window but inside the code's one-sided one), the
returned row scores 1/10 and is categorised Low, exactly as the amended
formula dictates. -/
theorem C2_amended_witness :
    (⟨"Differentiation", 1, 1, 1, 1 / 10, "Low"⟩ : ProbRow).probability_score =
      1 / 10 ∧
    (⟨"Differentiation", 1, 1, 1, 1 / 10, "Low"⟩ :
        ProbRow).probability_category = "Low" := by
  have h := (C2_amended_score_open_window "Differentiation" "Pure Mathematics"
      10 2026 [⟨"Pure Mathematics", none, "Differentiation", 2040, 1⟩]).1
      ⟨"Differentiation", 1, 1, 1, 1 / 10, "Low"⟩
      (by simp [get_topic_probability_stats]; norm_num)
  refine ⟨?_, ?_⟩
  · rw [h.1]
    simp [Finset.filter_singleton]
  · rw [h.2]
    norm_num

end TopicStats
